import Mathlib

/-!
Verification of the daily-planning pipelines of src/workflow.py.

The `DailyState` TypedDict becomes a Lean structure; Python ints become ℤ,
the float `sleep_hours` becomes ℚ, and Python's builtin `round` (banker's
rounding, half-to-even) becomes `pyRound` over exact rationals.  The
fallible real-valued division in `analyze_performance` is embedded through
`ratDiv`, which returns `none` on a zero divisor (Python's
ZeroDivisionError), so the evening pipeline is a `State → Option State`
function while the infallible morning pipeline stays total.
-/

/-- Python's builtin round on an exact rational: round half to even. -/
def pyRound (q : ℚ) : ℤ :=
  if q - ⌊q⌋ < 1 / 2 then ⌊q⌋
  else if 1 / 2 < q - ⌊q⌋ then ⌊q⌋ + 1
  else if ⌊q⌋ % 2 = 0 then ⌊q⌋ else ⌊q⌋ + 1

/-- The DailyState TypedDict of src/workflow.py. -/
structure DailyState where
  energy_level : ℤ
  sleep_hours : ℚ
  tasks : List String
  selected_tasks : List String
  completed_tasks : List String
  distractions : List String
  score : ℤ
  suggestion : String
deriving DecidableEq

/-- score_tasks from src/workflow.py: low energy keeps the first 2 tasks,
otherwise the first 5. -/
def score_tasks (state : DailyState) : DailyState :=
  if state.energy_level < 5 then
    { state with selected_tasks := state.tasks.take 2 }
  else
    { state with selected_tasks := state.tasks.take 5 }

/-- limit_to_3_tasks from src/workflow.py: truncate selected_tasks to 3. -/
def limit_to_3_tasks (state : DailyState) : DailyState :=
  { state with selected_tasks := state.selected_tasks.take 3 }

/-- generate_plan from src/workflow.py. -/
def generate_plan (state : DailyState) : DailyState :=
  { state with suggestion := "Focus deeply on: " ++ String.intercalate ", " state.selected_tasks }

/-- morning_graph of src/workflow.py: the compiled linear chain
START → score_tasks → limit_to_3_tasks → generate_plan → END. -/
def morning_graph (state : DailyState) : DailyState :=
  generate_plan (limit_to_3_tasks (score_tasks state))

/-- Real-valued division of the two list lengths, `none` on a zero divisor
(Python would raise ZeroDivisionError). -/
def ratDiv (a b : ℕ) : Option ℚ :=
  if b = 0 then none else some ((a : ℚ) / (b : ℚ))

/-- analyze_performance from src/workflow.py: an empty selection
short-circuits to score 0 before the division is reached. -/
def analyze_performance (state : DailyState) : Option DailyState :=
  if state.selected_tasks.length = 0 then
    some { state with score := 0 }
  else
    (ratDiv state.completed_tasks.length state.selected_tasks.length).map
      (fun completion_rate => { state with score := pyRound (completion_rate * 100) })

/-- suggest_improvement from src/workflow.py. -/
def suggest_improvement (state : DailyState) : DailyState :=
  if state.score = 100 then
    { state with suggestion := "Increase difficulty tommorow." }
  else if 60 ≤ state.score then
    { state with suggestion := "Maintain pace but reduce distractions." }
  else
    { state with suggestion := "Reduce workload and eliminate distractions." }

/-- night_graph of src/workflow.py: the compiled linear chain
START → analyze_performance → suggest_improvement → END. -/
def night_graph (state : DailyState) : Option DailyState :=
  (analyze_performance state).map suggest_improvement

/-- Convenience constructor for concrete states. -/
def mkState (e : ℤ) (ts sel comp : List String) (sc : ℤ) : DailyState :=
  { energy_level := e, sleep_hours := 8, tasks := ts, selected_tasks := sel,
    completed_tasks := comp, distractions := [], score := sc, suggestion := "" }

lemma floor_le_pyRound (q : ℚ) : ⌊q⌋ ≤ pyRound q := by
  unfold pyRound
  split_ifs <;> omega

lemma half_le_of_not_lt {q : ℚ} (h : ¬ q - ⌊q⌋ < 1 / 2) : (⌊q⌋ : ℚ) + 1 / 2 ≤ q := by
  push_neg at h
  linarith

lemma pyRound_le_of_le {q : ℚ} {n : ℤ} (h : q ≤ (n : ℚ)) : pyRound q ≤ n := by
  have hfn : ⌊q⌋ ≤ n := by
    have := Int.floor_le_floor h
    rwa [Int.floor_intCast] at this
  unfold pyRound
  split_ifs with h1 h2 h3
  · exact hfn
  · have hh := half_le_of_not_lt h1
    have hlt : (⌊q⌋ : ℚ) < (n : ℚ) := by linarith
    have : ⌊q⌋ < n := by exact_mod_cast hlt
    omega
  · exact hfn
  · have hh := half_le_of_not_lt h1
    have hlt : (⌊q⌋ : ℚ) < (n : ℚ) := by linarith
    have : ⌊q⌋ < n := by exact_mod_cast hlt
    omega

lemma le_pyRound_of_le {q : ℚ} {n : ℤ} (h : (n : ℚ) ≤ q) : n ≤ pyRound q :=
  le_trans (Int.le_floor.mpr h) (floor_le_pyRound q)

lemma pyRound_intCast (n : ℤ) : pyRound ((n : ℚ)) = n := by
  unfold pyRound
  rw [Int.floor_intCast]
  norm_num

/-- analyze_performance always succeeds: the zero-divisor branch of the
division is shielded by the emptiness guard. -/
lemma analyze_eq (s : DailyState) :
    analyze_performance s =
      some (if s.selected_tasks.length = 0 then { s with score := 0 }
        else { s with score := pyRound ((s.completed_tasks.length : ℚ) / (s.selected_tasks.length : ℚ) * 100) }) := by
  unfold analyze_performance ratDiv
  by_cases h : s.selected_tasks.length = 0
  · simp [h]
  · simp [h]

lemma suggest_frame (s : DailyState) :
    (suggest_improvement s).energy_level = s.energy_level ∧
    (suggest_improvement s).sleep_hours = s.sleep_hours ∧
    (suggest_improvement s).tasks = s.tasks ∧
    (suggest_improvement s).selected_tasks = s.selected_tasks ∧
    (suggest_improvement s).completed_tasks = s.completed_tasks ∧
    (suggest_improvement s).distractions = s.distractions ∧
    (suggest_improvement s).score = s.score := by
  unfold suggest_improvement
  split_ifs <;> exact ⟨rfl, rfl, rfl, rfl, rfl, rfl, rfl⟩

def stLow : DailyState := mkState 3 ["A", "B", "C", "D", "E"] [] [] 0

def stHigh : DailyState := mkState 8 ["A", "B", "C", "D", "E"] [] [] 0

def stEmptySel : DailyState := mkState 7 ["A"] [] ["A"] 0

def exC2 : DailyState := mkState 7 [] (List.replicate 201 "t") (List.replicate 202 "t") 0

def wC2 : DailyState := mkState 7 [] ["A"] ["A", "B"] 0

def exC7 : DailyState := mkState 7 [] ["A"] ["A", "B"] 0

def wC7 : DailyState := mkState 7 [] ["A", "B"] ["A"] 0

/-- C1: after the full morning pipeline, energy below 5 selects the first
2 tasks (length min 2 |tasks|) and energy at least 5 selects the first 3
(length min 3 |tasks|); selection is purely positional truncation. -/
theorem spec_C1_selected_length (s : DailyState) :
    (s.energy_level < 5 →
      (morning_graph s).selected_tasks = s.tasks.take 2 ∧
      (morning_graph s).selected_tasks.length = min 2 s.tasks.length) ∧
    (5 ≤ s.energy_level →
      (morning_graph s).selected_tasks = s.tasks.take 3 ∧
      (morning_graph s).selected_tasks.length = min 3 s.tasks.length) := by
  unfold morning_graph generate_plan limit_to_3_tasks score_tasks
  constructor
  · intro h
    rw [if_pos h]
    refine ⟨?_, ?_⟩ <;> norm_num [List.take_take, List.length_take]
  · intro h
    rw [if_neg (by omega)]
    refine ⟨?_, ?_⟩ <;> norm_num [List.take_take, List.length_take]

theorem spec_C1_witness :
    ((morning_graph stLow).selected_tasks = stLow.tasks.take 2 ∧
      (morning_graph stLow).selected_tasks.length = min 2 stLow.tasks.length) ∧
    ((morning_graph stHigh).selected_tasks = stHigh.tasks.take 3 ∧
      (morning_graph stHigh).selected_tasks.length = min 3 stHigh.tasks.length) :=
  ⟨(spec_C1_selected_length stLow).1 (by decide),
   (spec_C1_selected_length stHigh).2 (by decide)⟩

/-- C2 counterexample: with 201 selected and 202 completed tasks the exact
completion percentage is 20200/201 ≈ 100.4975, which rounds to 100, so the
score does not exceed 100 even though completed_tasks is strictly longer
than selected_tasks, refuting the final conjunct of the claim. -/
theorem spec_C2_counterexample :
    exC2.selected_tasks.length < exC2.completed_tasks.length ∧
    (analyze_performance exC2).map DailyState.score = some 100 := by
  have h1 : exC2.selected_tasks.length = 201 := by
    simp only [exC2, mkState, List.length_replicate]
  have h2 : exC2.completed_tasks.length = 202 := by
    simp only [exC2, mkState, List.length_replicate]
  refine ⟨by omega, ?_⟩
  rw [analyze_eq, if_neg (by omega), h1, h2]
  have hfl : ⌊((202 : ℕ) : ℚ) / ((201 : ℕ) : ℚ) * 100⌋ = 100 := by
    rw [Int.floor_eq_iff]
    norm_num
  simp only [Option.map_some', Option.some.injEq]
  show pyRound (((202 : ℕ) : ℚ) / ((201 : ℕ) : ℚ) * 100) = 100
  unfold pyRound
  rw [hfl]
  norm_num

/-- C2 (amended): for every state with non-empty selected_tasks,
analyze_performance succeeds and sets score to round(100·|completed|/|selected|)
under real-valued division with round-half-to-even; the score is not clamped,
so when |completed| > |selected| it is at least 100 and can exceed 100
(it need not strictly exceed 100, as 202 completed of 201 selected shows). -/
theorem spec_C2_amended (s : DailyState) (h : s.selected_tasks ≠ []) :
    ∃ t, analyze_performance s = some t ∧
      t.score = pyRound (100 * (s.completed_tasks.length : ℚ) / (s.selected_tasks.length : ℚ)) ∧
      (s.selected_tasks.length < s.completed_tasks.length → 100 ≤ t.score) := by
  have hl : s.selected_tasks.length ≠ 0 := by simpa using h
  rw [analyze_eq, if_neg hl]
  have hpos : (0 : ℚ) < (s.selected_tasks.length : ℚ) := by
    exact_mod_cast Nat.pos_of_ne_zero hl
  refine ⟨_, rfl, ?_, ?_⟩
  · ring_nf
  · intro hc
    have hle : (100 : ℚ) ≤ (s.completed_tasks.length : ℚ) / (s.selected_tasks.length : ℚ) * 100 := by
      rw [div_mul_eq_mul_div, le_div_iff₀ hpos]
      have : (s.selected_tasks.length : ℚ) + 1 ≤ (s.completed_tasks.length : ℚ) := by
        exact_mod_cast hc
      nlinarith
    have := le_pyRound_of_le (n := 100) (by push_cast; exact hle)
    exact this

theorem spec_C2_witness :
    ∃ t, analyze_performance wC2 = some t ∧
      t.score = pyRound (100 * (wC2.completed_tasks.length : ℚ) / (wC2.selected_tasks.length : ℚ)) ∧
      (wC2.selected_tasks.length < wC2.completed_tasks.length → 100 ≤ t.score) :=
  spec_C2_amended wC2 (by decide)

/-- C3: suggest_improvement picks the suggestion by exact thresholds on
score: 100 exactly gives the misspelled "Increase difficulty tommorow.",
60 ≤ score < 100 gives "Maintain pace but reduce distractions.",
score < 60 gives "Reduce workload and eliminate distractions.", and any
score strictly above 100 falls through to the 60-or-more branch. -/
theorem spec_C3_thresholds (s : DailyState) :
    (s.score = 100 → (suggest_improvement s).suggestion = "Increase difficulty tommorow.") ∧
    (60 ≤ s.score → s.score < 100 →
      (suggest_improvement s).suggestion = "Maintain pace but reduce distractions.") ∧
    (s.score < 60 →
      (suggest_improvement s).suggestion = "Reduce workload and eliminate distractions.") ∧
    (100 < s.score →
      (suggest_improvement s).suggestion = "Maintain pace but reduce distractions.") := by
  unfold suggest_improvement
  split_ifs with h1 h2 <;>
    refine ⟨?_, ?_, ?_, ?_⟩ <;> intros <;> first | rfl | omega

theorem spec_C3_witness :
    (suggest_improvement (mkState 7 [] [] [] 100)).suggestion = "Increase difficulty tommorow." ∧
    (suggest_improvement (mkState 7 [] [] [] 67)).suggestion = "Maintain pace but reduce distractions." ∧
    (suggest_improvement (mkState 7 [] [] [] 59)).suggestion = "Reduce workload and eliminate distractions." ∧
    (suggest_improvement (mkState 7 [] [] [] 120)).suggestion = "Maintain pace but reduce distractions." :=
  ⟨(spec_C3_thresholds (mkState 7 [] [] [] 100)).1 (by decide),
   (spec_C3_thresholds (mkState 7 [] [] [] 67)).2.1 (by decide) (by decide),
   (spec_C3_thresholds (mkState 7 [] [] [] 59)).2.2.1 (by decide),
   (spec_C3_thresholds (mkState 7 [] [] [] 120)).2.2.2 (by decide)⟩

/-- C4: on an empty selection analyze_performance returns the state with
score 0 and nothing else changed, short-circuiting before the division;
and the evening pipeline never fails on any state, since the division is
only reached with a non-zero divisor. -/
theorem spec_C4_empty_short_circuit (s : DailyState) :
    (s.selected_tasks = [] → analyze_performance s = some { s with score := 0 }) ∧
    (night_graph s).isSome := by
  constructor
  · intro h
    rw [analyze_eq, if_pos (by simp [h])]
  · rw [night_graph, analyze_eq]
    rfl

theorem spec_C4_witness :
    analyze_performance stEmptySel = some { stEmptySel with score := 0 } ∧
    (night_graph stEmptySel).isSome :=
  ⟨(spec_C4_empty_short_circuit stEmptySel).1 rfl,
   (spec_C4_empty_short_circuit stEmptySel).2⟩

/-- C5: after the morning pipeline, selected_tasks is an initial segment
of tasks (some rest of tasks extends it back to the whole list) of length
at most 3. -/
theorem spec_C5_initial_segment (s : DailyState) :
    (morning_graph s).selected_tasks.length ≤ 3 ∧
    ∃ rest, (morning_graph s).selected_tasks ++ rest = s.tasks := by
  unfold morning_graph generate_plan limit_to_3_tasks score_tasks
  by_cases h : s.energy_level < 5
  · rw [if_pos h]
    constructor
    · show ((s.tasks.take 2).take 3).length ≤ 3
      simp [List.length_take]
    · refine ⟨s.tasks.drop 2, ?_⟩
      show (s.tasks.take 2).take 3 ++ s.tasks.drop 2 = s.tasks
      norm_num [List.take_take, List.take_append_drop]
  · rw [if_neg h]
    constructor
    · show ((s.tasks.take 5).take 3).length ≤ 3
      simp [List.length_take]
    · refine ⟨s.tasks.drop 3, ?_⟩
      show (s.tasks.take 5).take 3 ++ s.tasks.drop 3 = s.tasks
      norm_num [List.take_take, List.take_append_drop]

/-- C6: generate_plan writes exactly the literal "Focus deeply on: "
followed by the comma-and-space join of selected_tasks; the empty
selection yields exactly the bare literal, and the output always starts
with that literal. -/
theorem spec_C6_plan_text (s : DailyState) :
    (generate_plan s).suggestion = "Focus deeply on: " ++ String.intercalate ", " s.selected_tasks ∧
    (s.selected_tasks = [] → (generate_plan s).suggestion = "Focus deeply on: ") ∧
    ∃ rest, (generate_plan s).suggestion = "Focus deeply on: " ++ rest := by
  refine ⟨rfl, ?_, ⟨String.intercalate ", " s.selected_tasks, rfl⟩⟩
  intro h
  show "Focus deeply on: " ++ String.intercalate ", " s.selected_tasks = "Focus deeply on: "
  rw [h]
  rfl

theorem spec_C6_witness :
    (generate_plan stEmptySel).suggestion =
      "Focus deeply on: " ++ String.intercalate ", " stEmptySel.selected_tasks ∧
    (generate_plan stEmptySel).suggestion = "Focus deeply on: " :=
  ⟨(spec_C6_plan_text stEmptySel).1, (spec_C6_plan_text stEmptySel).2.1 rfl⟩

/-- C7 counterexample: with 1 selected task and 2 completed tasks the
evening pipeline produces score 200, which is outside [0, 100], refuting
the claimed range invariant. -/
theorem spec_C7_counterexample :
    (night_graph exC7).map DailyState.score = some 200 ∧ ¬ ((200 : ℤ) ≤ 100) := by
  refine ⟨?_, by omega⟩
  rw [night_graph, analyze_eq, if_neg (by simp [exC7, mkState])]
  simp only [Option.map_some']
  rw [(suggest_frame _).2.2.2.2.2.2]
  show some (pyRound ((exC7.completed_tasks.length : ℚ) / (exC7.selected_tasks.length : ℚ) * 100)) = some 200
  have hq : ((exC7.completed_tasks.length : ℚ)) / ((exC7.selected_tasks.length : ℚ)) * 100 = ((200 : ℤ) : ℚ) := by
    norm_num [exC7, mkState]
  rw [hq, pyRound_intCast]

/-- C7 (amended): after the evening pipeline the score is an integer that
is always at least 0, and it is at most 100 provided completed_tasks is
no longer than selected_tasks; without that proviso it can exceed 100. -/
theorem spec_C7_amended (s : DailyState) :
    ∃ t, night_graph s = some t ∧ 0 ≤ t.score ∧
      (s.completed_tasks.length ≤ s.selected_tasks.length → t.score ≤ 100) := by
  rw [night_graph, analyze_eq]
  by_cases h : s.selected_tasks.length = 0
  · rw [if_pos h]
    refine ⟨_, rfl, ?_, ?_⟩
    · rw [(suggest_frame _).2.2.2.2.2.2]
    · intro _
      rw [(suggest_frame _).2.2.2.2.2.2]
      show (0 : ℤ) ≤ 100
      omega
  · rw [if_neg h]
    have hpos : (0 : ℚ) < (s.selected_tasks.length : ℚ) := by
      exact_mod_cast Nat.pos_of_ne_zero h
    refine ⟨_, rfl, ?_, ?_⟩
    · rw [(suggest_frame _).2.2.2.2.2.2]
      show (0 : ℤ) ≤ pyRound ((s.completed_tasks.length : ℚ) / (s.selected_tasks.length : ℚ) * 100)
      refine le_pyRound_of_le ?_
      push_cast
      positivity
    · intro hc
      rw [(suggest_frame _).2.2.2.2.2.2]
      show pyRound ((s.completed_tasks.length : ℚ) / (s.selected_tasks.length : ℚ) * 100) ≤ 100
      refine pyRound_le_of_le ?_
      have hc' : (s.completed_tasks.length : ℚ) ≤ (s.selected_tasks.length : ℚ) := by
        exact_mod_cast hc
      rw [div_mul_eq_mul_div, div_le_iff₀ hpos]
      push_cast
      linarith

theorem spec_C7_witness :
    ∃ t, night_graph wC7 = some t ∧ 0 ≤ t.score ∧ t.score ≤ 100 := by
  obtain ⟨t, h1, h2, h3⟩ := spec_C7_amended wC7
  exact ⟨t, h1, h2, h3 (by decide)⟩

/-- C8: limit_to_3_tasks is idempotent, and when selected_tasks already
has at most 3 entries it leaves selected_tasks unchanged. -/
theorem spec_C8_idempotent (s : DailyState) :
    limit_to_3_tasks (limit_to_3_tasks s) = limit_to_3_tasks s ∧
    (s.selected_tasks.length ≤ 3 → (limit_to_3_tasks s).selected_tasks = s.selected_tasks) := by
  constructor
  · unfold limit_to_3_tasks
    norm_num [List.take_take]
  · intro h
    show s.selected_tasks.take 3 = s.selected_tasks
    exact List.take_of_length_le h

theorem spec_C8_witness :
    limit_to_3_tasks (limit_to_3_tasks stLow) = limit_to_3_tasks stLow ∧
    (limit_to_3_tasks stLow).selected_tasks = stLow.selected_tasks :=
  ⟨(spec_C8_idempotent stLow).1, (spec_C8_idempotent stLow).2 (by decide)⟩

/-- C9: the evening pipeline only rewrites score and suggestion; the six
other fields of the state pass through unchanged. -/
theorem spec_C9_evening_frame (s : DailyState) :
    ∃ t, night_graph s = some t ∧
      t.energy_level = s.energy_level ∧ t.sleep_hours = s.sleep_hours ∧
      t.tasks = s.tasks ∧ t.selected_tasks = s.selected_tasks ∧
      t.completed_tasks = s.completed_tasks ∧ t.distractions = s.distractions := by
  rw [night_graph, analyze_eq]
  by_cases h : s.selected_tasks.length = 0
  · rw [if_pos h]
    exact ⟨_, rfl, (suggest_frame _).1, (suggest_frame _).2.1, (suggest_frame _).2.2.1,
      (suggest_frame _).2.2.2.1, (suggest_frame _).2.2.2.2.1, (suggest_frame _).2.2.2.2.2.1⟩
  · rw [if_neg h]
    exact ⟨_, rfl, (suggest_frame _).1, (suggest_frame _).2.1, (suggest_frame _).2.2.1,
      (suggest_frame _).2.2.2.1, (suggest_frame _).2.2.2.2.1, (suggest_frame _).2.2.2.2.2.1⟩

/-- C10: the morning pipeline only rewrites selected_tasks and
suggestion; the six other fields of the state pass through unchanged. -/
theorem spec_C10_morning_frame (s : DailyState) :
    (morning_graph s).energy_level = s.energy_level ∧
    (morning_graph s).sleep_hours = s.sleep_hours ∧
    (morning_graph s).tasks = s.tasks ∧
    (morning_graph s).completed_tasks = s.completed_tasks ∧
    (morning_graph s).distractions = s.distractions ∧
    (morning_graph s).score = s.score := by
  unfold morning_graph generate_plan limit_to_3_tasks score_tasks
  split_ifs <;> exact ⟨rfl, rfl, rfl, rfl, rfl, rfl⟩
